import Mathlib

/-!
Shallow embedding of the mshtml backend of the web-view repository
(src/webview-sys/mshtml/mod.rs).  Strings crossing the C boundary are
modelled as lists of bytes (naturals below 256); heap pointers are
modelled as abstract naturals; calls made to external collaborators
(the embedded Control Host, the native message queue) are recorded as
events so that theorems can speak about which calls each entry point
performs and in what order.
-/

namespace WebViewMshtml

/-- Value of a hexadecimal digit byte, as computed by
`char::to_digit(16)` in the percent_encoding crate: digits 0-9,
uppercase A-F and lowercase a-f. -/
def hexVal (b : Nat) : Option Nat :=
  if 48 ≤ b ∧ b ≤ 57 then some (b - 48)
  else if 65 ≤ b ∧ b ≤ 70 then some (b - 55)
  else if 97 ≤ b ∧ b ≤ 102 then some (b - 87)
  else none

/-- Percent-decoding of a byte string, following the percent_encoding
crate used by webview_new: a percent sign (byte 37) followed by two hex
digits decodes to one byte; a percent sign not followed by two hex
digits is passed through literally and scanning resumes right after
it. -/
def percentDecode : List Nat → List Nat
  | [] => []
  | 37 :: h :: l :: rest2 =>
    match hexVal h, hexVal l with
    | some hv, some lv => (hv * 16 + lv) :: percentDecode rest2
    | _, _ => 37 :: percentDecode (h :: l :: rest2)
  | 37 :: rest => 37 :: percentDecode rest
  | b :: rest => b :: percentDecode rest

/-- A UTF-8 continuation byte: 0x80 to 0xBF. -/
def utf8Cont (b : Nat) : Bool := 128 ≤ b ∧ b ≤ 191

/-- UTF-8 validity of a byte string, with the exact shape checked by
Rust's str::from_utf8 (which CStr::to_str and
PercentDecode::decode_utf8 build on): correct continuation bytes and
no overlong, surrogate or out-of-range encodings. -/
def validUtf8 : List Nat → Bool
  | [] => true
  | b :: rest =>
    if b ≤ 127 then validUtf8 rest
    else if 194 ≤ b ∧ b ≤ 223 then
      match rest with
      | c1 :: rest1 => utf8Cont c1 && validUtf8 rest1
      | _ => false
    else if b = 224 then
      match rest with
      | c1 :: c2 :: rest2 =>
        (160 ≤ c1 && c1 ≤ 191) && utf8Cont c2 && validUtf8 rest2
      | _ => false
    else if 225 ≤ b ∧ b ≤ 236 then
      match rest with
      | c1 :: c2 :: rest2 => utf8Cont c1 && utf8Cont c2 && validUtf8 rest2
      | _ => false
    else if b = 237 then
      match rest with
      | c1 :: c2 :: rest2 =>
        (128 ≤ c1 && c1 ≤ 159) && utf8Cont c2 && validUtf8 rest2
      | _ => false
    else if 238 ≤ b ∧ b ≤ 239 then
      match rest with
      | c1 :: c2 :: rest2 => utf8Cont c1 && utf8Cont c2 && validUtf8 rest2
      | _ => false
    else if b = 240 then
      match rest with
      | c1 :: c2 :: c3 :: rest3 =>
        (144 ≤ c1 && c1 ≤ 191) && utf8Cont c2 && utf8Cont c3 && validUtf8 rest3
      | _ => false
    else if 241 ≤ b ∧ b ≤ 243 then
      match rest with
      | c1 :: c2 :: c3 :: rest3 =>
        utf8Cont c1 && utf8Cont c2 && utf8Cont c3 && validUtf8 rest3
      | _ => false
    else if b = 244 then
      match rest with
      | c1 :: c2 :: c3 :: rest3 =>
        (128 ≤ c1 && c1 ≤ 143) && utf8Cont c2 && utf8Cont c3 && validUtf8 rest3
      | _ => false
    else false

/-- Bytes of the literal DATA_URL_PREFIX constant of mod.rs, the
string data colon text slash html comma. -/
def dataUrlPrefixBytes : List Nat :=
  [100, 97, 116, 97, 58, 116, 101, 120, 116, 47, 104, 116, 109, 108, 44]

/-- Bytes of the literal string about colon blank that the data-URL
branch of webview_new navigates to before writing the content. -/
def aboutBlankBytes : List Nat :=
  [97, 98, 111, 117, 116, 58, 98, 108, 97, 110, 107]

/-- Calls the mod.rs entry points make on the embedded Control Host
(the WebView value), which the spec treats as an external collaborator
specified only at its interface. -/
inductive HostCall where
  | navigate (url : List Nat)
  | write (content : List Nat)
  | evalJs (js : List Nat)
  deriving DecidableEq, Repr

/-- The CWebView aggregate of mod.rs: the native window (represented
by its handle), the external invoke callback (represented by an
abstract identity), and the opaque userdata pointer.  The boxed
WebView control itself is an external collaborator and is represented
only through the HostCall events issued to it. -/
structure CWebView where
  windowHandle : Nat
  externalInvokeCb : Nat
  userdata : Nat
  deriving DecidableEq, Repr

/-- Observable steps performed by webview_new, in program order. -/
inductive Event where
  | initCtl (hwnd : Nat) (width height : Int)
  | hostCall (c : HostCall)
  | showWindow (hwnd : Nat)
  | intoRaw (ptr : Nat)
  | setCallback
  deriving DecidableEq, Repr

/-- Result of webview_new: a panic (expect or unwrap failed), the null
pointer, or a finalized handle pointer with the CWebView it points
to. -/
inductive CreateResult where
  | panicked
  | nullHandle
  | ok (ptr : Nat) (wv : CWebView)
  deriving DecidableEq, Repr

/-- Everything webview_new produces: its return value, the ordered
events it performed, and, when it registered the host callback, the
handle pointer the registered closure captured. -/
structure CreateTrace where
  result : CreateResult
  events : List Event
  registeredPtr : Option Nat
  deriving DecidableEq, Repr

/-- Behaviour of the closure webview_new registers as the host
callback: given the script-to-host payload bytes, it builds a CString
(unwrap panics when the payload holds a NUL byte, modelled as none)
and otherwise calls the external invoke callback once with the
captured handle pointer and the payload bytes. -/
def hostCallbackClosure (wvPtr : Nat) (payload : List Nat) :
    Option (List (Nat × List Nat)) :=
  if payload.contains 0 then none
  else some [(wvPtr, payload)]

/-- Model of webview_new from mod.rs.  envFixOk is the outcome of
fix_ie_compat_mode (a one-shot environment adjustment, an external
collaborator); hwnd is the handle of the window Window::new creates;
wvPtr is the address Box::into_raw yields.  The title argument is
never read by the source.  Control flow follows the source line by
line: null on a failed environment fix; panic when the url bytes are
not valid UTF-8; on a data URL, percent-decode the remainder, panic
when it is not valid UTF-8, otherwise navigate to about:blank and
write the content; on any other url, navigate to it; then show the
window, finalize the pointer and register the callback. -/
def webview_new (envFixOk : Bool) (title url : List Nat)
    (width height : Int) (externalInvokeCb : Nat) (userdata : Nat)
    (hwnd wvPtr : Nat) : CreateTrace :=
  if !envFixOk then
    { result := .nullHandle, events := [], registeredPtr := none }
  else
    let ev0 : List Event := [.initCtl hwnd width height]
    if !validUtf8 url then
      { result := .panicked, events := ev0, registeredPtr := none }
    else if dataUrlPrefixBytes.isPrefixOf url then
      let content := percentDecode (url.drop dataUrlPrefixBytes.length)
      if !validUtf8 content then
        { result := .panicked, events := ev0, registeredPtr := none }
      else
        { result := .ok wvPtr ⟨hwnd, externalInvokeCb, userdata⟩
          events := ev0 ++
            [.hostCall (.navigate aboutBlankBytes),
             .hostCall (.write content),
             .showWindow hwnd, .intoRaw wvPtr, .setCallback]
          registeredPtr := some wvPtr }
    else
      { result := .ok wvPtr ⟨hwnd, externalInvokeCb, userdata⟩
        events := ev0 ++
          [.hostCall (.navigate url),
           .showWindow hwnd, .intoRaw wvPtr, .setCallback]
        registeredPtr := some wvPtr }

/-- Navigate arguments among a list of events, in order. -/
def navigatesOf : List Event → List (List Nat)
  | [] => []
  | .hostCall (.navigate u) :: rest => u :: navigatesOf rest
  | _ :: rest => navigatesOf rest

/-- Write contents among a list of events, in order. -/
def writesOf : List Event → List (List Nat)
  | [] => []
  | .hostCall (.write c) :: rest => c :: writesOf rest
  | _ :: rest => writesOf rest

/-! Message loop: webview_loop from mod.rs. -/

/-- Numeric value of the WM_QUIT message constant (0x0012). -/
def WM_QUIT : Nat := 18

/-- A Windows MSG record; only the fields the source reads or fills
are kept.  Default::default() zero-initializes all of them. -/
structure MSG where
  hwnd : Nat := 0
  message : Nat := 0
  wParam : Nat := 0
  lParam : Nat := 0
  deriving DecidableEq, Repr

/-- Calls webview_loop makes on the native translate and dispatch
primitives, in order. -/
inductive LoopEvent where
  | translate (m : MSG)
  | dispatchMsg (m : MSG)
  deriving DecidableEq, Repr

/-- Result of one webview_loop call: either the calling thread is
suspended inside GetMessageW waiting for a message (blocking mode on
an empty queue), or the call returns a C int together with the
remaining queue and the translate and dispatch calls it made. -/
inductive LoopOutcome where
  | blocked
  | returned (code : Int) (rest : List MSG) (events : List LoopEvent)
  deriving DecidableEq, Repr

/-- Shared tail of webview_loop after the retrieval step: return 1 on
WM_QUIT without translating or dispatching, otherwise translate and
dispatch the one message in hand and return 0. -/
def loopProcess (m : MSG) (rest : List MSG) : LoopOutcome :=
  if m.message = WM_QUIT then .returned 1 rest []
  else .returned 0 rest [.translate m, .dispatchMsg m]

/-- Model of webview_loop from mod.rs; the webview argument is unused
by the source.  The thread's message queue is the list of pending MSG
records.  Blocking mode calls GetMessageW: on an empty queue the
thread suspends; otherwise the head message is retrieved (GetMessageW
returns 0 for WM_QUIT and a positive value otherwise, so the source's
test of a negative return falls through in both cases).  Non-blocking
mode calls PeekMessageW with PM_REMOVE: its BOOL return is 1 when a
message was retrieved and 0 when the queue is empty, never negative,
so the source's test of a negative return also falls through on an
empty queue and the zero-initialized MSG is processed. -/
def webview_loop (blocking : Bool) (queue : List MSG) : LoopOutcome :=
  if blocking then
    match queue with
    | [] => .blocked
    | m :: rest => loopProcess m rest
  else
    match queue with
    | [] => loopProcess {} []
    | m :: rest => loopProcess m rest

/-! Dispatch: webview_dispatch from mod.rs. -/

/-- Modelled from the spec: WM_WEBVIEW_DISPATCH, the dispatch-specific
window message defined in the window module (not under src), is some
fixed message identifier distinct from the standard ones; its exact
value is immaterial to every claim. -/
def WM_WEBVIEW_DISPATCH : Nat := 32769

/-- The DispatchData task record webview_dispatch heap-allocates: the
target CWebView pointer, the function to run and its argument (the
fields read off the usage in mod.rs; the record itself is declared in
the window module). -/
structure DispatchData where
  target : Nat
  func : Nat
  arg : Nat
  deriving DecidableEq, Repr

/-- A message posted with PostMessageW: window handle, message id,
wParam, and lParam (here the address of the task record). -/
structure PostedMsg where
  hwnd : Nat
  message : Nat
  wParam : Nat
  lParam : Nat
  deriving DecidableEq, Repr

/-- Everything one webview_dispatch call does: the task records it
heap-allocates (address and contents), the PostMessageW calls it
attempts, the subset of those that actually entered the queue, the
function invocations it performs itself, the record addresses and the
arguments it frees, whether it panicked, and whether it suspended the
caller. -/
structure DispatchOutcome where
  allocated : List (Nat × DispatchData)
  postAttempts : List PostedMsg
  enqueued : List PostedMsg
  invoked : List (Nat × Nat)
  freedRecords : List Nat
  freedArgs : List Nat
  panicked : Bool
  blockedCaller : Bool
  deriving DecidableEq, Repr

/-- Model of webview_dispatch from mod.rs.  wv is the CWebView the
webview pointer wvPtr points to; addr is the address Box::into_raw
yields for the task record; postOk tells whether PostMessageW (whose
return the source ignores) succeeded in posting.  With no function
(None) the unwrap inside the record literal panics before anything is
allocated or posted.  Otherwise exactly one record is allocated and
one WM_WEBVIEW_DISPATCH message carrying its address is posted to the
window's queue; PostMessageW returns without waiting, and the call
never runs the function, never frees the record and never frees the
argument. -/
def webview_dispatch (wv : CWebView) (wvPtr : Nat) (f : Option Nat)
    (arg : Nat) (addr : Nat) (postOk : Bool) : DispatchOutcome :=
  match f with
  | none =>
    { allocated := [], postAttempts := [], enqueued := [], invoked := []
      freedRecords := [], freedArgs := [], panicked := true
      blockedCaller := false }
  | some fn =>
    let msg : PostedMsg :=
      { hwnd := wv.windowHandle, message := WM_WEBVIEW_DISPATCH
        wParam := 0, lParam := addr }
    { allocated := [(addr, ⟨wvPtr, fn, arg⟩)]
      postAttempts := [msg]
      enqueued := if postOk then [msg] else []
      invoked := [], freedRecords := [], freedArgs := []
      panicked := false, blockedCaller := false }

/-! Accessors and the remaining entry points. -/

/-- Model of webview_get_user_data from mod.rs: a field read returning
the stored userdata pointer and leaving the CWebView untouched. -/
def webview_get_user_data (wv : CWebView) : Nat × CWebView :=
  (wv.userdata, wv)

/-- Model of webview_eval from mod.rs: panics (none) when the script
bytes are not valid UTF-8, otherwise forwards the script to the
Control Host and returns 0; the CWebView is returned unchanged since
the source writes no field of it. -/
def webview_eval (wv : CWebView) (js : List Nat) :
    CWebView × Option (List HostCall × Int) :=
  if validUtf8 js then (wv, some ([.evalJs js], 0)) else (wv, none)

/-- Operations a host may perform on a live handle between create and
exit, each carrying the ambient inputs its model needs. -/
inductive Op where
  | loopStep (blocking : Bool) (queue : List MSG)
  | evalJs (js : List Nat)
  | dispatchOp (f : Option Nat) (arg : Nat) (addr : Nat) (postOk : Bool)
  | getUserData
  deriving DecidableEq, Repr

/-- Effect of one operation on the CWebView record itself: webview_loop
never reads its webview argument, webview_eval and webview_dispatch
only read fields, and webview_get_user_data returns the record
unchanged, so every operation leaves the record as it was. -/
def applyOp (wv : CWebView) : Op → CWebView
  | .loopStep _ _ => wv
  | .evalJs js => (webview_eval wv js).1
  | .dispatchOp _ _ _ _ => wv
  | .getUserData => (webview_get_user_data wv).2

/-- Applies the callback registered by a create call to a payload:
none when no callback was registered, some of the closure's outcome
otherwise. -/
def invokeRegistered (t : CreateTrace) (payload : List Nat) :
    Option (Option (List (Nat × List Nat))) :=
  t.registeredPtr.map (fun q => hostCallbackClosure q payload)

/-- Bytes of the url data colon text slash html comma followed by the
percent-encoded markup of a small heading: the routing example of the
spec. -/
def exampleDataUrl : List Nat :=
  dataUrlPrefixBytes ++
    [37, 51, 67, 104, 49, 37, 51, 69, 104, 105,
     37, 51, 67, 37, 50, 70, 104, 49, 37, 51, 69]

/-- Bytes of the percent-decoded content of exampleDataUrl: an h1
element holding the two letters hi. -/
def exampleDecodedContent : List Nat :=
  [60, 104, 49, 62, 104, 105, 60, 47, 104, 49, 62]

/-- Bytes of the url https colon slash slash example dot com. -/
def exampleHttpsUrl : List Nat :=
  [104, 116, 116, 112, 115, 58, 47, 47, 101, 120,
   97, 109, 112, 108, 101, 46, 99, 111, 109]

/-- Bytes of a data url whose remainder percent-decodes to the single
byte 255, which is not valid UTF-8. -/
def badDataUrl : List Nat := dataUrlPrefixBytes ++ [37, 70, 70]

/-- Byte string for the payload ping used by the spec's callback
round-trip example. -/
def pingPayload : List Nat := [112, 105, 110, 103]

/-!
Theorems settling the claims.
-/

/-- Helper: a url carrying the data-URL prefix is a different byte
string from about colon blank, since their first bytes differ. -/
theorem data_url_ne_about_blank (url : List Nat)
    (hp : dataUrlPrefixBytes.isPrefixOf url = true) :
    url ≠ aboutBlankBytes := by
  intro he
  rw [he] at hp
  exact absurd hp (by decide)

/-- Claim C1, counterexample: for the url whose inline remainder
percent-decodes to the invalid UTF-8 byte 255, create panics at the
decode unwrap and the Control Host receives no write call at all, even
though the url begins with the data prefix — refuting the claim's
universal quantification over urls with that prefix. -/
theorem C1_counterexample :
    dataUrlPrefixBytes.isPrefixOf badDataUrl = true ∧
    writesOf (webview_new true [] badDataUrl 640 480 7 9 3 5).events = [] ∧
    (webview_new true [] badDataUrl 640 480 7 9 3 5).result = .panicked := by
  decide

/-- Claim C1 (amended): provided the environment adjustment succeeded
and the url bytes are valid UTF-8, a url beginning with the data
prefix whose remainder percent-decodes to valid UTF-8 makes the
Control Host receive exactly one write call carrying the
percent-decoded remainder and no navigate call with the raw data url,
while a url not beginning with that prefix yields exactly one navigate
call with that exact url and no write call. -/
theorem C1_url_routing_amended (title url : List Nat) (w h : Int)
    (cb u hwnd p : Nat) (hu : validUtf8 url = true) :
    (dataUrlPrefixBytes.isPrefixOf url = true →
      validUtf8 (percentDecode (url.drop dataUrlPrefixBytes.length)) = true →
      writesOf (webview_new true title url w h cb u hwnd p).events =
          [percentDecode (url.drop dataUrlPrefixBytes.length)] ∧
        url ∉ navigatesOf (webview_new true title url w h cb u hwnd p).events) ∧
    (dataUrlPrefixBytes.isPrefixOf url = false →
      navigatesOf (webview_new true title url w h cb u hwnd p).events = [url] ∧
        writesOf (webview_new true title url w h cb u hwnd p).events = []) := by
  constructor
  · intro hp hc
    have hne := data_url_ne_about_blank url hp
    simp [webview_new, hu, hp, hc, writesOf, navigatesOf, hne]
  · intro hp
    simp [webview_new, hu, hp, writesOf, navigatesOf]

/-- Claim C1, witness: the amended routing theorem applied to the
spec's two concrete examples, the inline heading url and the plain
https url. -/
theorem C1_url_routing_amended_witness :
    (writesOf (webview_new true [] exampleDataUrl 640 480 7 9 3 5).events =
        [exampleDecodedContent] ∧
      exampleDataUrl ∉
        navigatesOf (webview_new true [] exampleDataUrl 640 480 7 9 3 5).events) ∧
    (navigatesOf (webview_new true [] exampleHttpsUrl 640 480 7 9 3 5).events =
        [exampleHttpsUrl] ∧
      writesOf (webview_new true [] exampleHttpsUrl 640 480 7 9 3 5).events = []) := by
  constructor
  · have h1 := (C1_url_routing_amended [] exampleDataUrl 640 480 7 9 3 5
      (by decide)).1 (by decide) (by decide)
    exact ⟨h1.1.trans (by decide), h1.2⟩
  · exact (C1_url_routing_amended [] exampleHttpsUrl 640 480 7 9 3 5
      (by decide)).2 (by decide)

/-- Claim C2, counterexample: on the inline heading url the create
path calls the Control Host's navigate (with about colon blank) and
also calls write, so the create path does not call exactly one of the
two — refuting the never-both part of the claim. -/
theorem C2_counterexample :
    navigatesOf (webview_new true [] exampleDataUrl 640 480 7 9 3 5).events ≠ [] ∧
    writesOf (webview_new true [] exampleDataUrl 640 480 7 9 3 5).events ≠ [] := by
  decide

/-- Claim C2 (amended): with the environment adjustment succeeded and
the url valid UTF-8, URL-prefix detection chooses between two call
patterns: on a url without the data prefix the create path performs
exactly one navigate and no write, while on a url with the data prefix
(whose remainder decodes as UTF-8) it performs both a navigate — to
about colon blank, not to the data url — and exactly one write. -/
theorem C2_navigate_write_amended (title url : List Nat) (w h : Int)
    (cb u hwnd p : Nat) (hu : validUtf8 url = true) :
    (dataUrlPrefixBytes.isPrefixOf url = false →
      (navigatesOf (webview_new true title url w h cb u hwnd p).events).length = 1 ∧
        (writesOf (webview_new true title url w h cb u hwnd p).events).length = 0) ∧
    (dataUrlPrefixBytes.isPrefixOf url = true →
      validUtf8 (percentDecode (url.drop dataUrlPrefixBytes.length)) = true →
      navigatesOf (webview_new true title url w h cb u hwnd p).events =
          [aboutBlankBytes] ∧
        (writesOf (webview_new true title url w h cb u hwnd p).events).length = 1) := by
  constructor
  · intro hp
    simp [webview_new, hu, hp, writesOf, navigatesOf]
  · intro hp hc
    simp [webview_new, hu, hp, hc, writesOf, navigatesOf]

/-- Claim C2, witness: the amended theorem applied to the https url
and to the inline heading url. -/
theorem C2_navigate_write_amended_witness :
    ((navigatesOf (webview_new true [] exampleHttpsUrl 640 480 7 9 3 5).events).length = 1 ∧
      (writesOf (webview_new true [] exampleHttpsUrl 640 480 7 9 3 5).events).length = 0) ∧
    (navigatesOf (webview_new true [] exampleDataUrl 640 480 7 9 3 5).events =
        [aboutBlankBytes] ∧
      (writesOf (webview_new true [] exampleDataUrl 640 480 7 9 3 5).events).length = 1) := by
  constructor
  · exact (C2_navigate_write_amended [] exampleHttpsUrl 640 480 7 9 3 5
      (by decide)).1 (by decide)
  · exact (C2_navigate_write_amended [] exampleDataUrl 640 480 7 9 3 5
      (by decide)).2 (by decide) (by decide)

/-- Claim C3, counterexample: non-blocking run_step on an empty queue
returns the C int 0, which is exactly the value returned after
processing an ordinary (non-quit) message — so the implementation has
no distinct no-message-available signal; moreover on the empty queue
it translates and dispatches a zero-initialized message. -/
theorem C3_counterexample :
    webview_loop false [] =
      .returned 0 [] [.translate {}, .dispatchMsg {}] ∧
    webview_loop true [{ message := 1 }] =
      .returned 0 []
        [.translate { message := 1 }, .dispatchMsg { message := 1 }] := by
  decide

/-- Claim C3 (amended): run_step with blocking false on an empty queue
does not suspend the calling thread, but it returns 0 — the same value
as the processed-a-message-keep-running signal, there being no
distinct no-message value — after passing a zero-initialized message
to translate and dispatch, because the source tests the PeekMessageW
return for being negative while that return is 0 on an empty queue. -/
theorem C3_nonblocking_empty_amended :
    webview_loop false [] ≠ .blocked ∧
    webview_loop false [] =
      .returned 0 [] [.translate {}, .dispatchMsg {}] := by
  decide

/-- Claim C4: for every message actually delivered to run_step, the
quit signal (return value 1) is returned exactly when the delivered
message is WM_QUIT, in which case it is neither translated nor
dispatched; any other delivered message is translated and dispatched
exactly once and the keep-running signal 0 is returned with the rest
of the queue intact. -/
theorem C4_quit_vs_dispatch (b : Bool) (m : MSG) (rest : List MSG) :
    (webview_loop b (m :: rest) = .returned 1 rest [] ↔
      m.message = WM_QUIT) ∧
    (m.message ≠ WM_QUIT →
      webview_loop b (m :: rest) =
        .returned 0 rest [.translate m, .dispatchMsg m]) := by
  cases b <;> by_cases hq : m.message = WM_QUIT <;>
    simp [webview_loop, loopProcess, hq]

/-- Claim C4, witness: the theorem applied to a delivered WM_QUIT
message and to a delivered WM_PAINT (15) message. -/
theorem C4_quit_vs_dispatch_witness :
    webview_loop true [{ message := WM_QUIT }] = .returned 1 [] [] ∧
    webview_loop false [{ message := 15 }] =
      .returned 0 []
        [.translate { message := 15 }, .dispatchMsg { message := 15 }] := by
  constructor
  · exact (C4_quit_vs_dispatch true { message := WM_QUIT } []).1.mpr rfl
  · exact (C4_quit_vs_dispatch false { message := 15 } []).2 (by decide)

/-- Claim C5, counterexample: with the environment adjustment
succeeded and a url whose single byte 255 is not valid UTF-8, create
panics at the expect on the url conversion instead of returning the
null handle — refuting the claim that bad input encoding is reported
by a null return. -/
theorem C5_counterexample :
    (webview_new true [] [255] 640 480 7 9 3 5).result = .panicked ∧
    (webview_new true [] [255] 640 480 7 9 3 5).result ≠ .nullHandle := by
  decide

/-- Claim C5 (amended): create returns the null handle exactly when
the one-time environment adjustment fails; a url that is not valid
UTF-8 makes create panic rather than return null; the title argument
is never examined at all; and no partially constructed handle is ever
exposed — whenever create returns a non-null handle it is the
finalized pointer to the fully built record with the host callback
registered against that same pointer. -/
theorem C5_construction_failure_amended (envFixOk : Bool)
    (title url : List Nat) (w h : Int) (cb u hwnd p : Nat) :
    ((webview_new envFixOk title url w h cb u hwnd p).result = .nullHandle ↔
      envFixOk = false) ∧
    (envFixOk = true → validUtf8 url = false →
      (webview_new envFixOk title url w h cb u hwnd p).result = .panicked) ∧
    (∀ q wv, (webview_new envFixOk title url w h cb u hwnd p).result = .ok q wv →
      q = p ∧ wv = ⟨hwnd, cb, u⟩ ∧
        (webview_new envFixOk title url w h cb u hwnd p).registeredPtr = some p) ∧
    (∀ title2, webview_new envFixOk title url w h cb u hwnd p =
      webview_new envFixOk title2 url w h cb u hwnd p) := by
  cases envFixOk with
  | false => simp [webview_new]
  | true =>
    by_cases hv : validUtf8 url <;>
      by_cases hp : dataUrlPrefixBytes.isPrefixOf url <;>
        by_cases hc : validUtf8 (percentDecode (url.drop dataUrlPrefixBytes.length)) <;>
          simp [webview_new, hv, hp, hc]

/-- Claim C5, witness: the amended theorem applied to a failed
environment fix, to the invalid url byte 255, and to two different
title byte strings. -/
theorem C5_construction_failure_amended_witness :
    (webview_new false [] exampleHttpsUrl 640 480 7 9 3 5).result = .nullHandle ∧
    (webview_new true [] [255] 640 480 7 9 3 5).result = .panicked ∧
    webview_new true [] exampleHttpsUrl 640 480 7 9 3 5 =
      webview_new true [104] exampleHttpsUrl 640 480 7 9 3 5 := by
  refine ⟨?_, ?_, ?_⟩
  · exact (C5_construction_failure_amended false [] exampleHttpsUrl
      640 480 7 9 3 5).1.mpr rfl
  · exact (C5_construction_failure_amended true [] [255]
      640 480 7 9 3 5).2.1 rfl (by decide)
  · exact (C5_construction_failure_amended true [] exampleHttpsUrl
      640 480 7 9 3 5).2.2.2 [104]

/-- Claim C6, counterexample: after a successful create, triggering
the registered host callback with a payload holding an interior NUL
byte makes the closure panic at the CString unwrap, so the external
callback is invoked zero times rather than exactly once — refuting the
claim's quantification over every payload string. -/
theorem C6_counterexample :
    invokeRegistered (webview_new true [] exampleHttpsUrl 640 480 7 9 3 5)
      [112, 0, 103] = some none := by
  decide

/-- Claim C6 (amended): on every successful create (environment fix
succeeded, url valid UTF-8, inline content decodable when present) the
handle pointer is finalized strictly before the host callback is
registered, the registered closure captures exactly the returned
pointer, and for every payload free of interior NUL bytes the closure
invokes the external callback exactly once with that pointer and the
byte-for-byte payload; a payload with an interior NUL makes the
closure panic instead. -/
theorem C6_callback_registration_amended (title url : List Nat)
    (w h : Int) (cb u hwnd p : Nat) (payload : List Nat)
    (hu : validUtf8 url = true)
    (hc : dataUrlPrefixBytes.isPrefixOf url = true →
      validUtf8 (percentDecode (url.drop dataUrlPrefixBytes.length)) = true)
    (hn : payload.contains 0 = false) :
    ∃ (wv : CWebView) (i j : Nat), i < j ∧
      (webview_new true title url w h cb u hwnd p).result = .ok p wv ∧
      (webview_new true title url w h cb u hwnd p).events[i]? =
          some (Event.intoRaw p) ∧
      (webview_new true title url w h cb u hwnd p).events[j]? =
          some Event.setCallback ∧
      invokeRegistered (webview_new true title url w h cb u hwnd p) payload =
        some (some [(p, payload)]) := by
  have hn2 : 0 ∉ payload := by simpa using hn
  by_cases hp : dataUrlPrefixBytes.isPrefixOf url = true
  · have hcc := hc hp
    refine ⟨⟨hwnd, cb, u⟩, 4, 5, by decide, ?_, ?_, ?_, ?_⟩ <;>
      simp [webview_new, hu, hp, hcc, invokeRegistered, hostCallbackClosure, hn2]
  · have hp2 : dataUrlPrefixBytes.isPrefixOf url = false :=
      Bool.eq_false_iff.mpr hp
    refine ⟨⟨hwnd, cb, u⟩, 3, 4, by decide, ?_, ?_, ?_, ?_⟩ <;>
      simp [webview_new, hu, hp2, invokeRegistered, hostCallbackClosure, hn2]

/-- Claim C6, witness: the amended theorem applied to the https url
with the ping payload, giving one external-callback invocation with
the finalized pointer 5 and the ping bytes. -/
theorem C6_callback_registration_amended_witness :
    invokeRegistered (webview_new true [] exampleHttpsUrl 640 480 7 9 3 5)
      pingPayload = some (some [(5, pingPayload)]) := by
  obtain ⟨wv, i, j, hij, hres, hi, hj, hinv⟩ :=
    C6_callback_registration_amended [] exampleHttpsUrl 640 480 7 9 3 5
      pingPayload (by decide) (by decide) (by decide)
  exact hinv

/-- Claim C7: every enqueue call with a present function heap-allocates
exactly one task record holding the target handle pointer, the function
and the argument, attempts exactly one post of the dispatch-specific
message carrying that record's address to the handle's window, and
itself never invokes the function, never frees the argument and never
suspends the caller. -/
theorem C7_enqueue_alloc_post (wv : CWebView) (wvPtr fn arg addr : Nat)
    (postOk : Bool) :
    (webview_dispatch wv wvPtr (some fn) arg addr postOk).allocated =
        [(addr, ⟨wvPtr, fn, arg⟩)] ∧
    (webview_dispatch wv wvPtr (some fn) arg addr postOk).postAttempts =
        [⟨wv.windowHandle, WM_WEBVIEW_DISPATCH, 0, addr⟩] ∧
    (webview_dispatch wv wvPtr (some fn) arg addr postOk).invoked = [] ∧
    (webview_dispatch wv wvPtr (some fn) arg addr postOk).freedArgs = [] ∧
    (webview_dispatch wv wvPtr (some fn) arg addr postOk).blockedCaller = false := by
  simp [webview_dispatch]

/-- Claim C8: when PostMessageW fails to post, the enqueue call has
still allocated the task record and it neither enqueues it, nor frees
it, nor runs the function, nor frees the argument — the record is
leaked rather than executed, and the argument is never freed without
the function having run. -/
theorem C8_post_failure_leak (wv : CWebView) (wvPtr fn arg addr : Nat) :
    (webview_dispatch wv wvPtr (some fn) arg addr false).enqueued = [] ∧
    (webview_dispatch wv wvPtr (some fn) arg addr false).allocated =
        [(addr, ⟨wvPtr, fn, arg⟩)] ∧
    (webview_dispatch wv wvPtr (some fn) arg addr false).freedRecords = [] ∧
    (webview_dispatch wv wvPtr (some fn) arg addr false).invoked = [] ∧
    (webview_dispatch wv wvPtr (some fn) arg addr false).freedArgs = [] := by
  simp [webview_dispatch]

/-- Helper: no operation in the live-handle interface writes any field
of the CWebView record. -/
theorem applyOp_preserves (wv : CWebView) (op : Op) : applyOp wv op = wv := by
  cases op <;> simp [applyOp, webview_eval, webview_get_user_data, apply_ite]

/-- Helper: any sequence of live-handle operations leaves the CWebView
record exactly as create built it. -/
theorem foldl_applyOp (wv : CWebView) (ops : List Op) :
    ops.foldl applyOp wv = wv := by
  induction ops with
  | nil => rfl
  | cons o rest ih => rw [List.foldl_cons, applyOp_preserves]; exact ih

/-- Helper: whenever create returns a non-null handle, the userdata
field of the record it built is the userdata argument of create. -/
theorem create_ok_userdata (envFixOk : Bool) (title url : List Nat)
    (w h : Int) (cb u hwnd p q : Nat) (wv : CWebView)
    (hok : (webview_new envFixOk title url w h cb u hwnd p).result = .ok q wv) :
    wv.userdata = u := by
  cases envFixOk with
  | false => simp [webview_new] at hok
  | true =>
    by_cases hv : validUtf8 url <;>
      by_cases hp : dataUrlPrefixBytes.isPrefixOf url <;>
        by_cases hc : validUtf8 (percentDecode (url.drop dataUrlPrefixBytes.length)) <;>
          simp [webview_new, hv, hp, hc] at hok <;>
            simp [← hok.2]

/-- Claim C9: for a handle produced by a successful create, after any
sequence of loop, eval, dispatch and accessor operations the
get_user_data accessor still returns the very userdata pointer passed
to create, and it returns the handle state unchanged — it has no side
effect on it. -/
theorem C9_userdata_stable (envFixOk : Bool) (title url : List Nat)
    (w h : Int) (cb u hwnd p q : Nat) (wv : CWebView) (ops : List Op)
    (hok : (webview_new envFixOk title url w h cb u hwnd p).result = .ok q wv) :
    (webview_get_user_data (ops.foldl applyOp wv)).1 = u ∧
    (webview_get_user_data (ops.foldl applyOp wv)).2 = ops.foldl applyOp wv := by
  have hwv := create_ok_userdata envFixOk title url w h cb u hwnd p q wv hok
  rw [foldl_applyOp]
  exact ⟨hwv, rfl⟩

/-- Claim C9, witness: the theorem applied to a concrete create and a
four-operation sequence touching every entry point. -/
theorem C9_userdata_stable_witness :
    (webview_get_user_data
      (([Op.getUserData, Op.loopStep false [], Op.evalJs [],
         Op.dispatchOp (some 2) 11 13 true]).foldl applyOp ⟨3, 7, 9⟩)).1 = 9 := by
  exact (C9_userdata_stable true [] exampleHttpsUrl 640 480 7 9 3 5 5 ⟨3, 7, 9⟩
    [Op.getUserData, Op.loopStep false [], Op.evalJs [],
     Op.dispatchOp (some 2) 11 13 true] (by decide)).1

/-- Claim C10: an enqueue call panics exactly when the function
argument is absent, and in that case it panics at the unwrap before
anything is allocated, posted or enqueued, so no dispatch message ever
carries a null function; with a present function the panic branch is
unreachable. -/
theorem C10_null_function_panic (wv : CWebView) (wvPtr arg addr : Nat)
    (postOk : Bool) (f : Option Nat) :
    ((webview_dispatch wv wvPtr f arg addr postOk).panicked = true ↔
      f = none) ∧
    (f = none →
      (webview_dispatch wv wvPtr f arg addr postOk).postAttempts = [] ∧
      (webview_dispatch wv wvPtr f arg addr postOk).enqueued = [] ∧
      (webview_dispatch wv wvPtr f arg addr postOk).allocated = []) := by
  cases f <;> simp [webview_dispatch]

/-- Claim C10, witness: the theorem applied to an absent function,
showing the panic with nothing posted, and to a present function,
showing no panic. -/
theorem C10_null_function_panic_witness :
    (webview_dispatch ⟨3, 7, 9⟩ 5 none 11 13 true).panicked = true ∧
    (webview_dispatch ⟨3, 7, 9⟩ 5 none 11 13 true).postAttempts = [] ∧
    (webview_dispatch ⟨3, 7, 9⟩ 5 (some 2) 11 13 true).panicked = false := by
  refine ⟨?_, ?_, ?_⟩
  · exact (C10_null_function_panic ⟨3, 7, 9⟩ 5 11 13 true none).1.mpr rfl
  · exact ((C10_null_function_panic ⟨3, 7, 9⟩ 5 11 13 true none).2 rfl).1
  · decide

end WebViewMshtml
